import Mathlib

/-!
Shallow embedding of the Graphite text tool
(`src/editor/src/messages/tool/tool_messages/text_tool.rs`).

The tool is a finite-state machine (`TextToolFsmState`) driven by
`TextToolMessage` events.  Side effects are emitted onto a response queue;
they are modelled here as a `List Msg` built up in emission order.
External collaborators (document queries, the font cache, the resize and
auto-panning controllers) are modelled as fields of a context structure
`Ctx`; calls into external code that only enqueue messages are modelled as
dedicated `Msg` constructors.  Machine floats (`f64` coordinates) are
modelled as exact rationals: every claim below concerns only comparisons
and data flow, never rounding.
-/

/-- 2D vector, modelling glam `DVec2` with exact rational coordinates. -/
structure DVec2 where
  x : ℚ
  y : ℚ
deriving DecidableEq, Repr

instance : Sub DVec2 := ⟨fun a b => ⟨a.x - b.x, a.y - b.y⟩⟩

/-- Componentwise absolute value, modelling `DVec2::abs`. -/
def DVec2.abs (v : DVec2) : DVec2 := ⟨|v.x|, |v.y|⟩

/-- Squared length, modelling `DVec2::length_squared`. -/
def DVec2.length_squared (v : DVec2) : ℚ := v.x * v.x + v.y * v.y

/-- 2D affine transform (column-major 2x2 matrix plus translation),
modelling glam `DAffine2`. -/
structure DAffine2 where
  m11 : ℚ
  m12 : ℚ
  m21 : ℚ
  m22 : ℚ
  tx : ℚ
  ty : ℚ
deriving DecidableEq, Repr

/-- Models `DAffine2::from_translation`. -/
def DAffine2.from_translation (v : DVec2) : DAffine2 := ⟨1, 0, 0, 1, v.x, v.y⟩

/-- Models `DAffine2::transform_point2`. -/
def DAffine2.transform_point2 (t : DAffine2) (p : DVec2) : DVec2 :=
  ⟨t.m11 * p.x + t.m21 * p.y + t.tx, t.m12 * p.x + t.m22 * p.y + t.ty⟩

/-- A quad (four corner points), modelling `graphene_core::renderer::Quad`. -/
structure Quad where
  p0 : DVec2
  p1 : DVec2
  p2 : DVec2
  p3 : DVec2
deriving DecidableEq, Repr

/-- Models `Quad::from_box([a, b])`: the axis-aligned rectangle with corners `a`, `b`. -/
def Quad.from_box (a b : DVec2) : Quad :=
  ⟨a, ⟨b.x, a.y⟩, b, ⟨a.x, b.y⟩⟩

/-- Applying an affine transform to a quad (`transform * quad`). -/
def Quad.applyTransform (t : DAffine2) (q : Quad) : Quad :=
  ⟨t.transform_point2 q.p0, t.transform_point2 q.p1,
   t.transform_point2 q.p2, t.transform_point2 q.p3⟩

/-- Colors are opaque identifiers here; only equality and defaulting matter
to the tool code. -/
abbrev Color := ℕ

/-- Models `Color::BLACK`. -/
def Color.BLACK : Color := 0

/-- Models `graphene_core::text::Font`: family plus style identifier. -/
structure Font where
  font_family : String
  font_style : String
deriving DecidableEq, Repr

/-- Models `graphene_core::text::TypesettingConfig`. -/
structure TypesettingConfig where
  font_size : ℚ
  line_height_ratio : ℚ
  character_spacing : ℚ
  max_width : Option ℚ
  max_height : Option ℚ
deriving DecidableEq, Repr

/-- Models `LayerNodeIdentifier`: an opaque node identifier.  The sentinel
`ROOT_PARENT` is a distinguished value. -/
abbrev LayerNodeIdentifier := ℕ

/-- Models `LayerNodeIdentifier::ROOT_PARENT`, the virtual-root sentinel. -/
def LayerNodeIdentifier.ROOT_PARENT : LayerNodeIdentifier := 0

/-- Models `LayerNodeIdentifier::to_node`.  (In the Rust source this lives in
external document-metadata code; identifiers are modelled as bare node
ids, so it is the identity.) -/
def LayerNodeIdentifier.to_node (l : LayerNodeIdentifier) : ℕ := l

/-- Models `graphene_core::vector::style::Fill` (the two cases the tool uses). -/
inductive Fill where
  | Solid (color : Color)
  | NoFill
deriving DecidableEq, Repr

/-- Modifier-key identifiers (`Key`); only carried through, never inspected. -/
abbrev Key := ℕ

/-- Models `ToolColorType` from the shared color selector. -/
inductive ToolColorType where
  | Custom
  | Primary
  | Secondary
deriving DecidableEq, Repr

/-- Models `ToolColorOptions` from the shared color selector. -/
structure ToolColorOptions where
  custom_color : Option Color
  primary_working_color : Option Color
  secondary_working_color : Option Color
  color_type : ToolColorType
deriving DecidableEq, Repr

/-- Modelled from the spec: `ToolColorOptions::active_color` (external to
src/) selects the fill color according to the configured mode. -/
def ToolColorOptions.active_color (o : ToolColorOptions) : Option Color :=
  match o.color_type with
  | ToolColorType.Custom => o.custom_color
  | ToolColorType.Primary => o.primary_working_color
  | ToolColorType.Secondary => o.secondary_working_color

/-- Models `TextOptions`: the tool's process-wide option configuration. -/
structure TextOptions where
  font_size : ℚ
  line_height_ratio : ℚ
  character_spacing : ℚ
  font_name : String
  font_style : String
  fill : ToolColorOptions
deriving DecidableEq, Repr

/-- Models `TextOptionsUpdate`. -/
inductive TextOptionsUpdate where
  | FillColor (color : Option Color)
  | FillColorType (color_type : ToolColorType)
  | Font (family : String) (style : String)
  | FontSize (font_size : ℚ)
  | LineHeightRatio (r : ℚ)
  | CharacterSpacing (s : ℚ)
  | WorkingColors (primary : Option Color) (secondary : Option Color)
deriving DecidableEq, Repr

/-- Models `TextToolMessage`.  The `OverlayContext` payload of `Overlays` carries no
data the transition inspects, so it is dropped. -/
inductive TextToolMessage where
  | Abort
  | WorkingColorChanged
  | Overlays
  | CommitText
  | DragStart
  | DragStop
  | EditSelected
  | Interact
  | PointerMove (center : Key) (lock_ratio : Key)
  | PointerOutsideViewport (center : Key) (lock_ratio : Key)
  | TextChange (new_text : String) (is_left_or_right_click : Bool)
  | UpdateBounds (new_text : String)
  | UpdateOptions (u : TextOptionsUpdate)
deriving DecidableEq, Repr

/-- Models `TextToolFsmState`. -/
inductive TextToolFsmState where
  | Ready
  | Editing
  | Placing
  | Dragging
deriving DecidableEq, Repr

/-- Models `EditingText`: snapshot of an in-progress edit session. -/
structure EditingText where
  text : String
  font : Font
  typesetting : TypesettingConfig
  color : Option Color
  transform : DAffine2
deriving DecidableEq, Repr

/-- Modelled from the spec: the Resize controller (external to src/)
"tracks an anchor point and a live point in document space" and "exposes
the anchor point".  Only the anchor is consumed by this file; the
snapping manager and the box math live outside src/ and are modelled as
emitted effects / context oracles. -/
structure Resize where
  drag_start : DVec2
deriving DecidableEq, Repr

/-- Modelled from the spec: the auto-panning controller's own state lives
outside src/ (broadcast subscriptions); the tool's field carries no data
this file reads, so it is a unit marker. -/
structure AutoPanning where
  mk ::
deriving DecidableEq, Repr

/-- Models `TextToolData`: the tool's mutable session state. -/
structure TextToolData where
  layer : LayerNodeIdentifier
  editing_text : Option EditingText
  new_text : String
  resize : Resize
  auto_panning : AutoPanning
  cached_resize_bounds : DVec2 × DVec2
deriving DecidableEq, Repr

/-- Every message / effect the tool emits onto the response queue, plus
overlay draws and calls into external controllers, in emission order. -/
inductive Msg where
  | DisplayEditableTextbox (text : String) (line_height_ratio : ℚ) (font_size : ℚ)
      (color : Color) (url : String) (transform : DAffine2)
      (max_width : Option ℚ) (max_height : Option ℚ)
  | DisplayRemoveEditableTextbox
  | DisplayEditableTextboxTransform (transform : DAffine2)
  | SelectedNodesSet (nodes : List ℕ)
  | DeleteNodes (node_ids : List ℕ) (delete_children : Bool)
  | RunDocumentGraph
  | AddTransaction
  | SetInput (node : ℕ) (index : ℕ) (value : String)
  | NewTextLayer (id : ℕ) (text : String) (font : Font)
      (typesetting : TypesettingConfig) (parent : ℕ) (insert_index : ℕ)
  | StartBuffer
  | FillSet (layer : LayerNodeIdentifier) (fill : Fill)
  | TransformSet (layer : LayerNodeIdentifier) (transform : DAffine2)
  | TriggerTextCommit
  | OverlaysDraw
  | OverlayQuad (quad : Quad) (fill : Option String)
  | SnapOverlaysDraw
  | SnapPreviewDraw
  | FinishTransaction (pos : DVec2)
  | ResizeCleanup
  | AutoPanSetup (center : Key) (lock_ratio : Key)
  | AutoPanShift
  | AutoPanStop (center : Key) (lock_ratio : Key)
  | LogError (s : String)
  | UpdateWorkingColors (primary : Option Color) (secondary : Option Color)
  | SendLayout
deriving DecidableEq, Repr

/-- Is this message the `DisplayRemoveEditableTextbox` frontend message?
(`set_editing` scans the queue for it.) -/
def Msg.isRemoveTextbox : Msg → Bool
  | Msg.DisplayRemoveEditableTextbox => true
  | _ => false

/-- Is this message a create-object intent (`NewTextLayer`)? -/
def Msg.isCreateIntent : Msg → Bool
  | Msg.NewTextLayer _ _ _ _ _ _ => true
  | _ => false

/-- Is this message an update-input intent (`SetInput`)? -/
def Msg.isUpdateIntent : Msg → Bool
  | Msg.SetInput _ _ _ => true
  | _ => false

/-- Is this message a selection change (`SelectedNodesSet`)? -/
def Msg.isSelectionSet : Msg → Bool
  | Msg.SelectedNodesSet _ => true
  | _ => false

/-- Is this message a stop of the auto-panning controller? -/
def Msg.isAutoPanStop : Msg → Bool
  | Msg.AutoPanStop _ _ => true
  | _ => false

/-- The external world: document queries, font cache, input state, and the
results of external math, all read-only during one transition. -/
structure Ctx where
  transform_to_viewport : LayerNodeIdentifier → DAffine2
  document_to_viewport : DAffine2
  get_fill_color : LayerNodeIdentifier → Option Color
  get_text : LayerNodeIdentifier → Option (String × Font × TypesettingConfig)
  get_text_id : LayerNodeIdentifier → Option ℕ
  selected_layers : List LayerNodeIdentifier
  is_text_layer : LayerNodeIdentifier → Bool
  all_layers : List LayerNodeIdentifier
  mouse_position : DVec2
  preview_url : Font → Option String
  text_bounding_box : String → Font → TypesettingConfig → DVec2
  quad_contains : Quad → DVec2 → Bool
  intersect_quad : Quad → List LayerNodeIdentifier
  bounding_box_viewport : LayerNodeIdentifier → Option (DVec2 × DVec2)
  calculate_points : Key → Key → DVec2 × DVec2
  resize_start : Resize
  new_layer_parent : ℕ
  new_node_id : ℕ
  primary_color : Color
  secondary_color : Color

/-- Modelled from the spec: fixed drag threshold
(`crate::consts::DRAG_THRESHOLD`, outside src/). -/
def DRAG_THRESHOLD : ℚ := 1

/-- The overlay fill color string computed from `COLOR_OVERLAY_BLUE` with
alpha 0.05 (external color math; the value is never inspected). -/
def overlayBlueFill : String := "overlay-blue-05"

/-- Modelled from the spec: `Resize::start` (external to src/) begins
resize tracking; the anchor computed by the external controller is
supplied through the context. -/
def Resize.start (_r : Resize) (ctx : Ctx) : Resize := ctx.resize_start

/-- Modelled from the spec: `Resize::viewport_drag_start` (external to
src/) exposes the anchor point, mapped to viewport space. -/
def Resize.viewport_drag_start (r : Resize) (ctx : Ctx) : DVec2 :=
  ctx.document_to_viewport.transform_point2 r.drag_start

/-- Models `TextToolData::set_editing`: shows the editable textbox when
`editable` and a snapshot exists; otherwise removes it, and if a removal
was already queued this cycle also clears the selection. -/
def TextToolData.set_editing (data : TextToolData) (editable : Bool) (ctx : Ctx)
    (responses : List Msg) : List Msg :=
  match data.editing_text, editable with
  | some editing_text, true =>
      responses ++ [Msg.DisplayEditableTextbox editing_text.text
        editing_text.typesetting.line_height_ratio editing_text.typesetting.font_size
        (editing_text.color.getD Color.BLACK)
        ((ctx.preview_url editing_text.font).getD "")
        editing_text.transform
        editing_text.typesetting.max_width editing_text.typesetting.max_height]
  | _, _ =>
      let has_remove_textbox := responses.any Msg.isRemoveTextbox
      let responses := responses ++ [Msg.DisplayRemoveEditableTextbox]
      if has_remove_textbox then responses ++ [Msg.SelectedNodesSet []] else responses

/-- Models `TextToolData::delete_empty_layer`: removes the editable textbox UI,
then deletes the (empty) text layer with its children and reruns the
graph; returns `Ready`. -/
def TextToolData.delete_empty_layer (data : TextToolData) (ctx : Ctx)
    (responses : List Msg) : TextToolFsmState × List Msg :=
  let responses := data.set_editing false ctx responses
  let responses := responses ++
    [Msg.DeleteNodes [data.layer.to_node] true, Msg.RunDocumentGraph]
  (TextToolFsmState.Ready, responses)

/-- Models `TextToolData::load_layer_text_node`: loads the layer's transform,
fill color and text triple into `editing_text` / `new_text`; `none` when
the layer has no text content. -/
def TextToolData.load_layer_text_node (data : TextToolData) (ctx : Ctx) :
    Option TextToolData :=
  let transform := ctx.transform_to_viewport data.layer
  let color := (ctx.get_fill_color data.layer).getD Color.BLACK
  match ctx.get_text data.layer with
  | none => none
  | some (text, font, typesetting) =>
      some { data with
        editing_text := some ⟨text, font, typesetting, some color, transform⟩,
        new_text := text }

/-- Models `TextToolData::start_editing_layer`.  Note that the Rust source only
logs on `ROOT_PARENT` and then continues: there is no early return. -/
def TextToolData.start_editing_layer (data : TextToolData)
    (layer : LayerNodeIdentifier) (tool_state : TextToolFsmState) (ctx : Ctx)
    (responses : List Msg) : TextToolData × List Msg :=
  let responses :=
    if layer = LayerNodeIdentifier.ROOT_PARENT then
      responses ++ [Msg.LogError "Cannot edit ROOT_PARENT in TextTooLData"]
    else responses
  let responses :=
    if tool_state = TextToolFsmState.Editing then data.set_editing false ctx responses
    else responses
  let data := { data with layer := layer }
  match data.load_layer_text_node ctx with
  | some data =>
      let responses := responses ++ [Msg.AddTransaction]
      let responses := data.set_editing true ctx responses
      let responses := responses ++ [Msg.SelectedNodesSet [data.layer.to_node]]
      let responses := responses ++
        [Msg.SetInput ((ctx.get_text_id data.layer).getD 0) 1 "",
         Msg.RunDocumentGraph]
      (data, responses)
  | none => (data, responses)

/-- Models `TextToolData::new_text` (the method; renamed because the Rust method
shares its name with the `new_text` field): creates a fresh text layer
and opens the edit session on it. -/
def TextToolData.new_text_layer (data : TextToolData) (ctx : Ctx)
    (editing_text : EditingText) (responses : List Msg) :
    TextToolData × List Msg :=
  let data := { data with new_text := "" }
  let responses := responses ++ [Msg.AddTransaction]
  let data := { data with layer := ctx.new_node_id }
  let responses := responses ++
    [Msg.NewTextLayer data.layer.to_node "" editing_text.font
      editing_text.typesetting ctx.new_layer_parent 0,
     Msg.StartBuffer,
     Msg.FillSet data.layer
       (match editing_text.color with
        | some c => Fill.Solid c
        | none => Fill.NoFill),
     Msg.TransformSet data.layer editing_text.transform]
  let data := { data with editing_text := some editing_text }
  let responses := data.set_editing true ctx responses
  let responses := responses ++ [Msg.SelectedNodesSet [data.layer.to_node]]
  let responses := responses ++ [Msg.RunDocumentGraph]
  (data, responses)

/-- Models `TextToolData::check_click`: first text layer (in document order)
whose measured, transformed bounding quad contains the mouse. -/
def check_click (ctx : Ctx) : Option LayerNodeIdentifier :=
  (ctx.all_layers.filter (fun layer => ctx.is_text_layer layer)).find?
    (fun layer =>
      match ctx.get_text layer with
      | some (text, font, typesetting) =>
          let far := ctx.text_bounding_box text font typesetting
          let quad := Quad.from_box ⟨0, 0⟩ far
          let transformed_quad := Quad.applyTransform (ctx.transform_to_viewport layer) quad
          ctx.quad_contains transformed_quad ctx.mouse_position
      | none => false)

/-- Models `can_edit_selected`: the unique selected layer when exactly one layer
is selected and it is fed by a "Text" node; `none` otherwise. -/
def can_edit_selected (ctx : Ctx) : Option LayerNodeIdentifier :=
  match ctx.selected_layers with
  | [] => none
  | layer :: rest =>
      if rest ≠ [] then none
      else if ¬ ctx.is_text_layer layer then none
      else some layer

/-- The FSM transition, `Fsm::transition` for `TextToolFsmState`: match on
(current state, event), arm-for-arm in the Rust source's order.  Returns
the next state, the updated session and the emitted responses of this
processing step (the step begins with an empty queue). -/
def transition (s : TextToolFsmState) (event : TextToolMessage)
    (data : TextToolData) (ctx : Ctx) (tool_options : TextOptions) :
    TextToolFsmState × TextToolData × List Msg :=
  match s, event with
  | TextToolFsmState.Editing, TextToolMessage.Overlays =>
      let responses :=
        [Msg.DisplayEditableTextboxTransform (ctx.transform_to_viewport data.layer)]
      let responses :=
        match data.editing_text with
        | some editing_text =>
            let far := ctx.text_bounding_box data.new_text editing_text.font
              editing_text.typesetting
            if far.x ≠ 0 ∧ far.y ≠ 0 then
              let quad := Quad.from_box ⟨0, 0⟩ far
              let transformed_quad :=
                Quad.applyTransform (ctx.transform_to_viewport data.layer) quad
              responses ++ [Msg.OverlayQuad transformed_quad (some overlayBlueFill)]
            else responses
        | none => responses
      (TextToolFsmState.Editing, data, responses)
  | _, TextToolMessage.Overlays =>
      let responses :=
        if s = TextToolFsmState.Placing ∨ s = TextToolFsmState.Dragging then
          let quad := Quad.from_box data.cached_resize_bounds.1 data.cached_resize_bounds.2
          let responses :=
            (ctx.intersect_quad quad).map (fun layer =>
              Msg.OverlayQuad
                (Quad.from_box ((ctx.bounding_box_viewport layer).getD (⟨0, 0⟩, ⟨0, 0⟩)).1
                  ((ctx.bounding_box_viewport layer).getD (⟨0, 0⟩, ⟨0, 0⟩)).2)
                (some overlayBlueFill))
          responses ++ [Msg.OverlayQuad quad (some overlayBlueFill)]
        else
          ctx.selected_layers.foldl (fun responses layer =>
            match ctx.get_text layer with
            | none => responses
            | some (text, font, typesetting) =>
                let far := ctx.text_bounding_box text font typesetting
                let quad := Quad.from_box ⟨0, 0⟩ far
                let multiplied := Quad.applyTransform (ctx.transform_to_viewport layer) quad
                responses ++ [Msg.OverlayQuad multiplied none]) []
      (s, data, responses ++ [Msg.SnapOverlaysDraw])
  | _, TextToolMessage.EditSelected =>
      match can_edit_selected ctx with
      | some layer =>
          let r := data.start_editing_layer layer s ctx []
          (TextToolFsmState.Editing, r.1, r.2)
      | none => (s, data, [])
  | _, TextToolMessage.Abort =>
      let responses := [Msg.FinishTransaction (data.resize.viewport_drag_start ctx)]
      let responses := responses ++ [Msg.ResizeCleanup]
      let responses :=
        if s = TextToolFsmState.Editing then data.set_editing false ctx responses
        else responses
      (TextToolFsmState.Ready, data, responses)
  | TextToolFsmState.Ready, TextToolMessage.DragStart =>
      let data := { data with resize := data.resize.start ctx }
      let p := data.resize.viewport_drag_start ctx
      let data := { data with cached_resize_bounds := (p, p) }
      (TextToolFsmState.Placing, data, [])
  | TextToolFsmState.Placing, TextToolMessage.PointerMove center lock_ratio
  | TextToolFsmState.Dragging, TextToolMessage.PointerMove center lock_ratio =>
      let document_points := ctx.calculate_points center lock_ratio
      let document_to_viewport := ctx.document_to_viewport
      let data := { data with cached_resize_bounds :=
        (document_to_viewport.transform_point2 document_points.1,
         document_to_viewport.transform_point2 document_points.2) }
      (TextToolFsmState.Dragging, data,
        [Msg.OverlaysDraw, Msg.AutoPanSetup center lock_ratio])
  | _, TextToolMessage.PointerMove _ _ =>
      (s, data, [Msg.SnapPreviewDraw, Msg.OverlaysDraw])
  | TextToolFsmState.Placing, TextToolMessage.PointerOutsideViewport _ _
  | TextToolFsmState.Dragging, TextToolMessage.PointerOutsideViewport _ _ =>
      (TextToolFsmState.Dragging, data, [Msg.AutoPanShift])
  | _, TextToolMessage.PointerOutsideViewport center lock_ratio =>
      (s, data, [Msg.AutoPanStop center lock_ratio])
  | TextToolFsmState.Placing, TextToolMessage.DragStop
  | TextToolFsmState.Dragging, TextToolMessage.DragStop =>
      let start := data.cached_resize_bounds.1
      let stop := data.cached_resize_bounds.2
      let has_dragged :=
        (start - stop).length_squared > DRAG_THRESHOLD * DRAG_THRESHOLD
      let clicked :=
        if has_dragged then none else check_click ctx
      match clicked with
      | some clicked_text_layer_path =>
          let (data, responses) :=
            data.start_editing_layer clicked_text_layer_path s ctx []
          (TextToolFsmState.Editing, data, responses)
      | none =>
          let constraint_size :=
            if has_dragged then some (start - stop).abs else none
          let editing_text : EditingText :=
            { text := "",
              transform := DAffine2.from_translation start,
              typesetting :=
                { font_size := tool_options.font_size,
                  line_height_ratio := tool_options.line_height_ratio,
                  max_width := constraint_size.map (fun size => size.x),
                  character_spacing := tool_options.character_spacing,
                  max_height := constraint_size.map (fun size => size.y) },
              font := ⟨tool_options.font_name, tool_options.font_style⟩,
              color := tool_options.fill.active_color }
          let (data, responses) := data.new_text_layer ctx editing_text []
          (TextToolFsmState.Editing, data, responses)
  | TextToolFsmState.Editing, TextToolMessage.CommitText =>
      if data.new_text.isEmpty then
        let (s, responses) := data.delete_empty_layer ctx []
        (s, data, responses)
      else
        (TextToolFsmState.Editing, data, [Msg.TriggerTextCommit])
  | TextToolFsmState.Editing, TextToolMessage.TextChange new_text is_left_or_right_click =>
      let data := { data with new_text := new_text }
      if ¬ is_left_or_right_click then
        let responses := data.set_editing false ctx []
        let responses := responses ++
          [Msg.SetInput ((ctx.get_text_id data.layer).getD 0) 1 data.new_text,
           Msg.RunDocumentGraph]
        (TextToolFsmState.Ready, data, responses)
      else
        if data.new_text.isEmpty then
          let (s, responses) := data.delete_empty_layer ctx []
          (s, data, responses)
        else
          (TextToolFsmState.Editing, data, [Msg.TriggerTextCommit])
  | TextToolFsmState.Editing, TextToolMessage.UpdateBounds new_text =>
      (TextToolFsmState.Editing, { data with new_text := new_text },
        [Msg.OverlaysDraw])
  | _, TextToolMessage.WorkingColorChanged =>
      (s, data,
        [Msg.UpdateWorkingColors (some ctx.primary_color) (some ctx.secondary_color)])
  | _, _ => (s, data, [])

/-- Models `TextTool`: FSM state, session data and options together. -/
structure TextTool where
  fsm_state : TextToolFsmState
  tool_data : TextToolData
  options : TextOptions
deriving DecidableEq, Repr

/-- Models `TextTool::process_message`: `UpdateOptions` is intercepted before the
FSM and mutates only the options (the `Font` arm sends the options layout
and the trailing `send_layout` runs for every arm); every other message
is dispatched through `transition`. -/
def TextTool.process_message (tool : TextTool) (message : TextToolMessage)
    (ctx : Ctx) : TextTool × List Msg :=
  match message with
  | TextToolMessage.UpdateOptions action =>
      match action with
      | TextOptionsUpdate.Font family style =>
          ({ tool with options :=
              { tool.options with font_name := family, font_style := style } },
           [Msg.SendLayout, Msg.SendLayout])
      | TextOptionsUpdate.FontSize font_size =>
          ({ tool with options := { tool.options with font_size := font_size } },
           [Msg.SendLayout])
      | TextOptionsUpdate.LineHeightRatio r =>
          ({ tool with options := { tool.options with line_height_ratio := r } },
           [Msg.SendLayout])
      | TextOptionsUpdate.CharacterSpacing cs =>
          ({ tool with options := { tool.options with character_spacing := cs } },
           [Msg.SendLayout])
      | TextOptionsUpdate.FillColor color =>
          ({ tool with options := { tool.options with fill :=
              { tool.options.fill with
                  custom_color := color,
                  color_type := ToolColorType.Custom } } },
           [Msg.SendLayout])
      | TextOptionsUpdate.FillColorType color_type =>
          ({ tool with options := { tool.options with fill :=
              { tool.options.fill with color_type := color_type } } },
           [Msg.SendLayout])
      | TextOptionsUpdate.WorkingColors primary secondary =>
          ({ tool with options := { tool.options with fill :=
              { tool.options.fill with
                  primary_working_color := primary,
                  secondary_working_color := secondary } } },
           [Msg.SendLayout])
  | _ =>
      let r := transition tool.fsm_state message tool.tool_data ctx tool.options
      ({ tool with fsm_state := r.1, tool_data := r.2.1 }, r.2.2)

/-- A concrete typesetting configuration for test fixtures. -/
def ts0 : TypesettingConfig :=
  { font_size := 12, line_height_ratio := 1, character_spacing := 1,
    max_width := none, max_height := none }

/-- A concrete document/input context for witnesses and counterexamples:
one text layer `7` (with text node `70`), mouse hitting nothing. -/
def ctx0 : Ctx :=
  { transform_to_viewport := fun _ => DAffine2.from_translation ⟨0, 0⟩,
    document_to_viewport := DAffine2.from_translation ⟨0, 0⟩,
    get_fill_color := fun _ => none,
    get_text := fun l => if l = 7 then some ("abc", ⟨"fam", "sty"⟩, ts0) else none,
    get_text_id := fun l => if l = 7 then some 70 else none,
    selected_layers := [7],
    is_text_layer := fun l => l = 7,
    all_layers := [7],
    mouse_position := ⟨0, 0⟩,
    preview_url := fun _ => none,
    text_bounding_box := fun _ _ _ => ⟨1, 1⟩,
    quad_contains := fun _ _ => false,
    intersect_quad := fun _ => [],
    bounding_box_viewport := fun _ => none,
    calculate_points := fun _ _ => (⟨0, 0⟩, ⟨0, 0⟩),
    resize_start := ⟨⟨0, 0⟩⟩,
    new_layer_parent := 1,
    new_node_id := 42,
    primary_color := 1,
    secondary_color := 2 }

/-- A concrete session fixture (no active edit, empty buffer, layer 5). -/
def d0 : TextToolData :=
  { layer := 5, editing_text := none, new_text := "",
    resize := ⟨⟨0, 0⟩⟩, auto_panning := ⟨⟩,
    cached_resize_bounds := (⟨0, 0⟩, ⟨0, 0⟩) }

/-- A concrete editing-session fixture (snapshot loaded, buffer "x"). -/
def dEdit : TextToolData :=
  { d0 with
    new_text := "x",
    editing_text := some ⟨"x", ⟨"fam", "sty"⟩, ts0, some 3,
      DAffine2.from_translation ⟨0, 0⟩⟩ }

/-- A concrete options fixture. -/
def opts0 : TextOptions :=
  { font_size := 24, line_height_ratio := 6/5, character_spacing := 1,
    font_name := "fam", font_style := "sty",
    fill := ⟨none, some 1, some 2, ToolColorType.Primary⟩ }

/-- C1: in `Editing`, a commit event with an empty live buffer emits the
delete-object intent (with children) followed by the graph-recompute
request and goes to `Ready`; with a non-empty buffer it emits only
`TriggerTextCommit` and stays in `Editing`.  In neither case is a create
(`NewTextLayer`) or update (`SetInput`) intent emitted. -/
theorem commitText_empty_deletes_nonempty_finalizes
    (data : TextToolData) (ctx : Ctx) (opts : TextOptions) :
    transition TextToolFsmState.Editing TextToolMessage.CommitText data ctx opts =
      (if data.new_text.isEmpty then
        (TextToolFsmState.Ready, data,
          [Msg.DisplayRemoveEditableTextbox,
           Msg.DeleteNodes [data.layer.to_node] true, Msg.RunDocumentGraph])
      else (TextToolFsmState.Editing, data, [Msg.TriggerTextCommit]))
    ∧ (transition TextToolFsmState.Editing TextToolMessage.CommitText data ctx opts).2.2.all
        (fun m => !(m.isCreateIntent || m.isUpdateIntent)) = true := by
  cases h : data.new_text.isEmpty <;>
    cases he : data.editing_text <;>
      simp [transition, TextToolData.delete_empty_layer, TextToolData.set_editing,
        Msg.isCreateIntent, Msg.isUpdateIntent, h, he, Msg.isRemoveTextbox]

/-- C8: in `Editing`, a `TextChange` carrying the left-or-right-click flag
behaves exactly like first storing the new text in the live buffer and
then processing `CommitText`: same next state, same session, same
emitted messages. -/
theorem textChange_click_is_commit
    (t : String) (data : TextToolData) (ctx : Ctx) (opts : TextOptions) :
    transition TextToolFsmState.Editing (TextToolMessage.TextChange t true) data ctx opts =
      transition TextToolFsmState.Editing TextToolMessage.CommitText
        { data with new_text := t } ctx opts := by
  simp [transition]

/-- C9: processing any `UpdateOptions` message leaves the FSM state and the
whole session untouched; the only emitted messages are options-layout
updates. -/
theorem updateOptions_preserves_state_and_session
    (tool : TextTool) (u : TextOptionsUpdate) (ctx : Ctx) :
    (tool.process_message (TextToolMessage.UpdateOptions u) ctx).1.fsm_state = tool.fsm_state
    ∧ (tool.process_message (TextToolMessage.UpdateOptions u) ctx).1.tool_data = tool.tool_data
    ∧ (tool.process_message (TextToolMessage.UpdateOptions u) ctx).2.all
        (fun m => m = Msg.SendLayout) = true := by
  cases u <;> simp [TextTool.process_message]

/-- C10: `UpdateOptions (FillColor c)` sets the custom fill color to `c`
and always resets the fill mode to `Custom`, also when `c` is `none`. -/
theorem fillColor_update_sets_custom_mode
    (tool : TextTool) (c : Option Color) (ctx : Ctx) :
    (tool.process_message (TextToolMessage.UpdateOptions
        (TextOptionsUpdate.FillColor c)) ctx).1.options.fill.custom_color = c
    ∧ (tool.process_message (TextToolMessage.UpdateOptions
        (TextOptionsUpdate.FillColor c)) ctx).1.options.fill.color_type =
      ToolColorType.Custom := by
  simp [TextTool.process_message]

/-- C2 counterexample: in `Editing` with a non-empty new text, a
`TextChange` carrying the pointer-terminating (left-or-right-click) flag
emits only `TriggerTextCommit` and stays in `Editing` — it does not leave
edit-presentation mode, emits no update-input intent, and does not
transition to `Ready` as the claim states. -/
theorem textChange_terminating_nonempty_stays_editing :
    transition TextToolFsmState.Editing (TextToolMessage.TextChange "Hello" true)
        dEdit ctx0 opts0 =
      (TextToolFsmState.Editing, { dEdit with new_text := "Hello" },
        [Msg.TriggerTextCommit])
    ∧ TextToolFsmState.Editing ≠ TextToolFsmState.Ready := by
  constructor
  · rfl
  · decide

/-- C2 amended: in `Editing`, a `TextChange` with the pointer-terminating
flag set first stores the new text in the live buffer; if the buffer is
then empty it emits the delete-object intent (with children) plus a
graph recompute and transitions to `Ready`, with no update-input intent;
if non-empty it emits only the finalize-presentation request
(`TriggerTextCommit`) and stays in `Editing` (the update-input /
recompute / `Ready` path belongs to the flag-unset event). -/
theorem textChange_terminating_spec
    (t : String) (data : TextToolData) (ctx : Ctx) (opts : TextOptions) :
    transition TextToolFsmState.Editing (TextToolMessage.TextChange t true)
        data ctx opts =
      (if t.isEmpty then
        (TextToolFsmState.Ready, { data with new_text := t },
          [Msg.DisplayRemoveEditableTextbox,
           Msg.DeleteNodes [data.layer.to_node] true, Msg.RunDocumentGraph])
      else
        (TextToolFsmState.Editing, { data with new_text := t },
          [Msg.TriggerTextCommit])) := by
  cases h : t.isEmpty <;>
    cases he : data.editing_text <;>
      simp [transition, TextToolData.delete_empty_layer, TextToolData.set_editing,
        h, he, Msg.isRemoveTextbox]

/-- Does this (state, event) pair fall through to the default `_ => self`
arm of the Rust match (no specific arm handles it)? -/
def hitsDefaultArm (s : TextToolFsmState) (e : TextToolMessage) : Bool :=
  match s, e with
  | TextToolFsmState.Ready, TextToolMessage.DragStart => false
  | _, TextToolMessage.DragStart => true
  | TextToolFsmState.Placing, TextToolMessage.DragStop => false
  | TextToolFsmState.Dragging, TextToolMessage.DragStop => false
  | _, TextToolMessage.DragStop => true
  | TextToolFsmState.Editing, TextToolMessage.CommitText => false
  | _, TextToolMessage.CommitText => true
  | TextToolFsmState.Editing, TextToolMessage.TextChange _ _ => false
  | _, TextToolMessage.TextChange _ _ => true
  | TextToolFsmState.Editing, TextToolMessage.UpdateBounds _ => false
  | _, TextToolMessage.UpdateBounds _ => true
  | _, TextToolMessage.Interact => true
  | _, TextToolMessage.UpdateOptions _ => true
  | _, _ => false

/-- C3: every (state, event) combination not matched by a specific arm of
the transition falls through to the default arm: the current state is
returned unchanged, every field of the session is unchanged, and no
message is emitted. -/
theorem unmatched_pair_is_noop
    (s : TextToolFsmState) (e : TextToolMessage) (data : TextToolData)
    (ctx : Ctx) (opts : TextOptions) (h : hitsDefaultArm s e = true) :
    transition s e data ctx opts = (s, data, []) := by
  cases s <;> cases e <;> simp_all [hitsDefaultArm, transition]

/-- C3 witness: `DragStart` in the `Editing` state is unmatched and is a
no-op. -/
theorem unmatched_pair_is_noop_witness :
    hitsDefaultArm TextToolFsmState.Editing TextToolMessage.DragStart = true
    ∧ transition TextToolFsmState.Editing TextToolMessage.DragStart d0 ctx0 opts0 =
      (TextToolFsmState.Editing, d0, []) :=
  ⟨by decide,
   unmatched_pair_is_noop TextToolFsmState.Editing TextToolMessage.DragStart
     d0 ctx0 opts0 (by decide)⟩

/-- C4 counterexample: aborting from `Dragging` emits exactly the
finish-transaction and resize-cleanup effects — the emitted sequence
contains no auto-panning stop, contrary to the claim that abort
processing stops auto-panning. -/
theorem abort_does_not_stop_autopan :
    transition TextToolFsmState.Dragging TextToolMessage.Abort d0 ctx0 opts0 =
      (TextToolFsmState.Ready, d0,
        [Msg.FinishTransaction ⟨0, 0⟩, Msg.ResizeCleanup])
    ∧ ([Msg.FinishTransaction ⟨0, 0⟩, Msg.ResizeCleanup] : List Msg).all
        (fun m => !m.isAutoPanStop) = true := by
  constructor
  · simp [transition, d0, ctx0, Resize.viewport_drag_start,
      DAffine2.transform_point2, DAffine2.from_translation]
  · decide

/-- C4 amended: for every state, abort finalizes the in-flight drag
transaction, cleans up the resize controller, additionally removes the
editable-textbox overlay exactly when the state was `Editing`, emits no
selection change, leaves the session unchanged, and transitions to
`Ready`.  The abort processing itself emits no auto-panning stop;
auto-panning is stopped by a later pointer-outside-viewport event
processed outside `Placing`/`Dragging`. -/
theorem abort_spec
    (s : TextToolFsmState) (data : TextToolData) (ctx : Ctx) (opts : TextOptions) :
    transition s TextToolMessage.Abort data ctx opts =
      (TextToolFsmState.Ready, data,
        [Msg.FinishTransaction (data.resize.viewport_drag_start ctx),
         Msg.ResizeCleanup] ++
        (if s = TextToolFsmState.Editing then [Msg.DisplayRemoveEditableTextbox]
         else []))
    ∧ (transition s TextToolMessage.Abort data ctx opts).2.2.all
        (fun m => !m.isSelectionSet) = true := by
  cases s <;>
    cases he : data.editing_text <;>
      simp [transition, TextToolData.set_editing, he, Msg.isRemoveTextbox,
        Msg.isSelectionSet]

/-- The text snapshot constructed when a drag-stop is treated as a click
and no existing text object is hit: auto-growing, no max-width/height. -/
def clickEditingText (opts : TextOptions) (start : DVec2) : EditingText :=
  { text := "",
    transform := DAffine2.from_translation start,
    typesetting :=
      { font_size := opts.font_size,
        line_height_ratio := opts.line_height_ratio,
        max_width := none,
        character_spacing := opts.character_spacing,
        max_height := none },
    font := ⟨opts.font_name, opts.font_style⟩,
    color := opts.fill.active_color }

/-- The text snapshot constructed when a drag-stop is treated as a genuine
drag: the construction box constrains both dimensions. -/
def dragEditingText (opts : TextOptions) (start stop : DVec2) : EditingText :=
  { clickEditingText opts start with
    typesetting :=
      { font_size := opts.font_size,
        line_height_ratio := opts.line_height_ratio,
        max_width := some (start - stop).abs.x,
        character_spacing := opts.character_spacing,
        max_height := some (start - stop).abs.y } }

/-- C5: on drag-stop in `Placing` or `Dragging`, the gesture is a click iff
the squared displacement between the cached corner points is ≤ the drag
threshold squared (boundary inclusive): then the hit test runs and either
an existing text layer is edited or an unconstrained text object is
created; only a strictly larger displacement takes the drag path, which
creates a constrained box and never consults the hit test. -/
theorem dragStop_click_iff_within_threshold
    (s : TextToolFsmState) (data : TextToolData) (ctx : Ctx) (opts : TextOptions)
    (h : s = TextToolFsmState.Placing ∨ s = TextToolFsmState.Dragging) :
    transition s TextToolMessage.DragStop data ctx opts =
      (if (data.cached_resize_bounds.1 - data.cached_resize_bounds.2).length_squared ≤
          DRAG_THRESHOLD * DRAG_THRESHOLD then
        match check_click ctx with
        | some layer =>
            ((TextToolFsmState.Editing,
              (data.start_editing_layer layer s ctx []).1,
              (data.start_editing_layer layer s ctx []).2) :
              TextToolFsmState × TextToolData × List Msg)
        | none =>
            (TextToolFsmState.Editing,
              (data.new_text_layer ctx
                (clickEditingText opts data.cached_resize_bounds.1) []).1,
              (data.new_text_layer ctx
                (clickEditingText opts data.cached_resize_bounds.1) []).2)
      else
        (TextToolFsmState.Editing,
          (data.new_text_layer ctx
            (dragEditingText opts data.cached_resize_bounds.1
              data.cached_resize_bounds.2) []).1,
          (data.new_text_layer ctx
            (dragEditingText opts data.cached_resize_bounds.1
              data.cached_resize_bounds.2) []).2)) := by
  rcases h with h | h <;> subst h
  all_goals by_cases hd :
    (data.cached_resize_bounds.1 - data.cached_resize_bounds.2).length_squared ≤
      DRAG_THRESHOLD * DRAG_THRESHOLD
  all_goals first
  | (rw [if_pos hd]
     cases hc : check_click ctx <;>
       simp [transition, not_lt.mpr hd, hc, clickEditingText])
  | (rw [if_neg hd]
     simp [transition, not_le.mp hd, dragEditingText, clickEditingText])

/-- C5 witness: the drag-stop characterization applied at a concrete
zero-displacement gesture in `Placing` (squared displacement 0 ≤ 1). -/
theorem dragStop_click_iff_within_threshold_witness :
    transition TextToolFsmState.Placing TextToolMessage.DragStop d0 ctx0 opts0 =
      (if (d0.cached_resize_bounds.1 - d0.cached_resize_bounds.2).length_squared ≤
          DRAG_THRESHOLD * DRAG_THRESHOLD then
        match check_click ctx0 with
        | some layer =>
            ((TextToolFsmState.Editing,
              (d0.start_editing_layer layer TextToolFsmState.Placing ctx0 []).1,
              (d0.start_editing_layer layer TextToolFsmState.Placing ctx0 []).2) :
              TextToolFsmState × TextToolData × List Msg)
        | none =>
            (TextToolFsmState.Editing,
              (d0.new_text_layer ctx0
                (clickEditingText opts0 d0.cached_resize_bounds.1) []).1,
              (d0.new_text_layer ctx0
                (clickEditingText opts0 d0.cached_resize_bounds.1) []).2)
      else
        (TextToolFsmState.Editing,
          (d0.new_text_layer ctx0
            (dragEditingText opts0 d0.cached_resize_bounds.1
              d0.cached_resize_bounds.2) []).1,
          (d0.new_text_layer ctx0
            (dragEditingText opts0 d0.cached_resize_bounds.1
              d0.cached_resize_bounds.2) []).2)) :=
  dragStop_click_iff_within_threshold TextToolFsmState.Placing d0 ctx0 opts0
    (Or.inl rfl)

/-- The eligibility condition of the edit-selected claim: exactly one
layer selected, and that layer fed by a "Text" node. -/
def editSelectedEligible (ctx : Ctx) : Bool :=
  match ctx.selected_layers with
  | [layer] => ctx.is_text_layer layer
  | _ => false

/-- C6: an edit-selected event transitions to `Editing` exactly when one
single layer is selected and it resolves to text content; in every other
case the request is declined silently — same state, unchanged session,
no emitted messages. -/
theorem editSelected_only_with_unique_text_layer
    (s : TextToolFsmState) (data : TextToolData) (ctx : Ctx) (opts : TextOptions) :
    if editSelectedEligible ctx then
      (transition s TextToolMessage.EditSelected data ctx opts).1 =
        TextToolFsmState.Editing
    else
      transition s TextToolMessage.EditSelected data ctx opts = (s, data, []) := by
  cases s <;>
    rcases hsel : ctx.selected_layers with _ | ⟨l, _ | ⟨m, rest⟩⟩ <;>
      first
      | (cases hl : ctx.is_text_layer l <;>
          simp [editSelectedEligible, transition, can_edit_selected, hsel, hl])
      | simp [editSelectedEligible, transition, can_edit_selected, hsel]

/-- C7 (code bug): calling `start_editing_layer` with the virtual-root
sentinel logs the internal error but does not return early — the
session's `layer` field is mutated to `ROOT_PARENT` (here from layer 5),
contrary to the documented intent that the request is otherwise ignored
with no session mutation. -/
theorem start_editing_root_parent_mutates_session :
    (d0.start_editing_layer LayerNodeIdentifier.ROOT_PARENT
        TextToolFsmState.Ready ctx0 []).1.layer = LayerNodeIdentifier.ROOT_PARENT
    ∧ d0.layer ≠ LayerNodeIdentifier.ROOT_PARENT
    ∧ (d0.start_editing_layer LayerNodeIdentifier.ROOT_PARENT
        TextToolFsmState.Ready ctx0 []).2 =
      [Msg.LogError "Cannot edit ROOT_PARENT in TextTooLData"] := by
  refine ⟨?_, by decide, ?_⟩ <;>
    simp [TextToolData.start_editing_layer, TextToolData.load_layer_text_node,
      d0, ctx0, LayerNodeIdentifier.ROOT_PARENT]
